import Mathlib

/-!
Verification of the table-discovery scanner in src/force.py
(class AdvancedSupabaseScanner).  The Python functions are embedded as
executable Lean definitions; result dictionaries are modelled as
association lists over a universe of Python/JSON values.
-/

set_option maxHeartbeats 1000000

/-- Python/JSON values as delivered by response.json() and stored in the
result dictionaries of src/force.py.  JSON numbers with a fractional part
(Python float) occur in no verified claim and are not modelled. -/
inductive PyVal where
  | none : PyVal
  | bool : Bool → PyVal
  | int : Int → PyVal
  | str : String → PyVal
  | list : List PyVal → PyVal
  | dict : List (String × PyVal) → PyVal

/-- Python truthiness, as used by the conditions of the scan loop
(`if result[...] and result[...]`). -/
def PyVal.truthy : PyVal → Bool
  | .none => false
  | .bool b => b
  | .int n => n != 0
  | .str s => !s.isEmpty
  | .list l => !l.isEmpty
  | .dict d => !d.isEmpty

/-- Python identity test `v is None`. -/
def PyVal.isNone : PyVal → Bool
  | .none => true
  | _ => false

/-- Python `type(v).__name__`, as used for column-type guessing in
get_table_schema_info. -/
def type_name : PyVal → String
  | .none => "NoneType"
  | .bool _ => "bool"
  | .int _ => "int"
  | .str _ => "str"
  | .list _ => "list"
  | .dict _ => "dict"

/-- Dictionary indexing `d[k]`.  Every key looked up by the embedded code is
present in the dictionaries it is applied to (proved in claim C9), so the
default value for a missing key is never exercised. -/
def dictGet (d : List (String × PyVal)) (k : String) : PyVal :=
  (d.lookup k).getD PyVal.none

/-- Python `row.get(col)`: the value when present, None when absent. -/
def rowGet (row : List (String × PyVal)) (col : String) : PyVal :=
  (row.lookup col).getD PyVal.none

/-- Raw outcome of the one `requests.get` call made by check_table_exists
(src/force.py lines 127-132): an HTTP response whose status code is known and
whose body either parses as JSON (`Except.ok`) or makes `response.json()`
raise (`Except.error` carries `str(e)`); a `requests.exceptions.Timeout`; or
any other raised exception (`str(e)` carried). -/
inductive ProbeResponse where
  | response (status_code : Nat) (json_result : Except String PyVal)
  | timeout
  | error (msg : String)

/-- Embedding of check_table_exists (src/force.py lines 124-183).  Each
branch returns the literal dictionary built by the source.  In the 200 branch
the source calls `response.json()` inside the `try`, so an unparseable body
falls through to the blanket `except Exception` handler, producing the
`exists: None, status_code: 0` dictionary. -/
def check_table_exists : ProbeResponse → List (String × PyVal)
  | .timeout =>
      [("exists", PyVal.none), ("accessible", PyVal.bool false),
       ("status_code", PyVal.int 0), ("error", PyVal.str "Timeout")]
  | .error e =>
      [("exists", PyVal.none), ("accessible", PyVal.bool false),
       ("status_code", PyVal.int 0), ("error", PyVal.str e)]
  | .response status json_result =>
      if status = 200 then
        match json_result with
        | .ok body =>
            [("exists", PyVal.bool true), ("accessible", PyVal.bool true),
             ("status_code", PyVal.int 200), ("sample_data", body)]
        | .error e =>
            [("exists", PyVal.none), ("accessible", PyVal.bool false),
             ("status_code", PyVal.int 0), ("error", PyVal.str e)]
      else if status = 401 then
        [("exists", PyVal.bool true), ("accessible", PyVal.bool false),
         ("status_code", PyVal.int 401), ("error", PyVal.str "Authentication required")]
      else if status = 403 then
        [("exists", PyVal.bool true), ("accessible", PyVal.bool false),
         ("status_code", PyVal.int 403), ("error", PyVal.str "Access forbidden")]
      else if status = 404 then
        [("exists", PyVal.bool false), ("accessible", PyVal.bool false),
         ("status_code", PyVal.int 404), ("error", PyVal.str "Table not found")]
      else
        [("exists", PyVal.bool true), ("accessible", PyVal.bool false),
         ("status_code", PyVal.int status),
         ("error", PyVal.str ("HTTP " ++ toString status))]

/-- The outcome taxonomy of spec section 4.2. -/
inductive OutcomeClass where
  | Accessible | Protected | Absent | Indeterminate
deriving DecidableEq

/-- Classification of one check_table_exists result dictionary, using the
branch conditions of the scan loop (src/force.py lines 208-227): the branch
that appends to `accessible`, the branch for `protected`, the branch for
`unknown` (the Indeterminate class), and the fall-through case
(`exists` equal to False, an HTTP 404), which is the Absent class. -/
def outcome_class (result : List (String × PyVal)) : OutcomeClass :=
  if (dictGet result "exists").truthy && (dictGet result "accessible").truthy then
    .Accessible
  else if (dictGet result "exists").truthy && !(dictGet result "accessible").truthy then
    .Protected
  else if (dictGet result "exists").isNone then
    .Indeterminate
  else
    .Absent

/-- Modelled from the spec: the amended outcome mapping of claim C2.  HTTP
200 with a parseable body is Accessible, 401 and 403 are Protected, 404 is
Absent, a timeout, a transport failure, or a 200 with an unparseable body is
Indeterminate, and every other response code is Protected (the code treats
any non-404 HTTP response as confirming existence).  Being a total function,
it assigns exactly one class to every raw signal. -/
def amended_outcome_class : ProbeResponse → OutcomeClass
  | .timeout => .Indeterminate
  | .error _ => .Indeterminate
  | .response status body =>
      if status = 200 then
        match body with
        | .ok _ => .Accessible
        | .error _ => .Indeterminate
      else if status = 401 ∨ status = 403 then .Protected
      else if status = 404 then .Absent
      else .Protected

/-- The seed vocabulary `self.common_tables` (src/force.py lines 30-91),
transcribed in source order, duplicates included. -/
def common_tables : List String :=
  ["users", "profiles", "accounts", "auth", "sessions", "tokens",
   "user_profiles", "user_settings", "user_roles", "permissions",
   "posts", "articles", "pages", "content", "media", "images",
   "files", "documents", "uploads", "attachments", "gallery",
   "products", "categories", "orders", "payments", "transactions",
   "cart", "wishlist", "inventory", "suppliers", "customers",
   "invoices", "receipts", "discounts", "coupons", "reviews",
   "comments", "likes", "shares", "follows", "messages",
   "notifications", "chats", "conversations", "groups",
   "events", "bookings", "reservations", "appointments",
   "schedule", "calendar", "availability", "tickets",
   "projects", "tasks", "teams", "employees", "departments",
   "contacts", "leads", "clients", "vendors", "partners",
   "logs", "analytics", "metrics", "reports", "statistics",
   "activities", "audit", "tracking", "sessions_log",
   "settings", "config", "preferences", "options", "themes",
   "templates", "layouts", "menus", "navigation",
   "locations", "addresses", "cities", "countries", "regions",
   "coordinates", "maps", "places", "venues",
   "courses", "lessons", "students", "teachers", "grades",
   "assignments", "exams", "certificates", "schools",
   "patients", "doctors", "appointments", "prescriptions",
   "treatments", "medical_records", "hospitals", "clinics",
   "properties", "listings", "agents", "buyers", "sellers",
   "contracts", "inspections", "valuations",
   "games", "players", "scores", "achievements", "levels",
   "tournaments", "matches", "leaderboards",
   "accounts", "transactions", "budgets", "expenses",
   "income", "investments", "loans", "assets",
   "data", "info", "details", "history", "archive",
   "backup", "temp", "cache", "queue", "jobs"]

/-- The fixed list of name transforms applied before a base name
(src/force.py line 110). -/
def prefixes : List String := ["app_", "user_", "admin_", "sys_", "tmp_", "old_", "new_"]

/-- The fixed list of name transforms applied after a base name
(src/force.py line 116). -/
def suffixes : List String := ["_data", "_info", "_details", "_log", "_history"]

/-- Python `s.endswith(post)`: the character sequence of `post` is a suffix
of the character sequence of `s`.  Stated over the underlying character
lists so that it evaluates by kernel reduction. -/
def endswith (s post : String) : Bool :=
  post.data.isSuffixOf s.data

/-- Python slicing `s[:-n]` for a string: all characters but the last `n`. -/
def drop_right (s : String) (n : Nat) : String :=
  ⟨s.data.take (s.data.length - n)⟩

/-- Python `len(s)`: the number of characters of `s`. -/
def py_len (s : String) : Nat := s.data.length

/-- One iteration of the singular-form loop (src/force.py lines 101-107):
for a name ending in "s" whose length exceeds 3, add the name with the final
"s" stripped; otherwise, for a name ending in "ies", add the name with "ies"
rewritten to "y".  The elif ordering is exactly the source ordering. -/
def singularStep (variations : Finset String) (table : String) : Finset String :=
  if endswith table "s" ∧ py_len table > 3 then
    insert (drop_right table 1) variations
  else if endswith table "ies" then
    insert (drop_right table 3 ++ "y") variations
  else
    variations

/-- One iteration of an affix loop (src/force.py lines 111-113 and 117-119):
`for table in list(variations): variations.add(combine(affix, table))` first
materialises a snapshot of the set, then adds the transformed form of every
snapshot element, which is the union below. -/
def transform_step (combine : String → String → String)
    (variations : Finset String) (affix : String) : Finset String :=
  variations ∪ variations.image (combine affix)

/-- The variation set built by generate_table_variations (src/force.py lines
96-121) before the final sort: the seed set, then the singular-form loop over
the original seed list, then one snapshot-union step per element of
`prefixes`, then one per element of `suffixes`.  Note the snapshot is
re-taken for each affix, so a later affix also applies to the output of an
earlier one. -/
def variationsSet (tables : List String) : Finset String :=
  suffixes.foldl (transform_step (fun suf table => table ++ suf))
    (prefixes.foldl (transform_step (fun pre table => pre ++ table))
      (tables.foldl singularStep tables.toFinset))

/-- Embedding of generate_table_variations (src/force.py lines 96-121):
`self.common_tables = sorted(list(variations))`. -/
def generate_table_variations (tables : List String) : List String :=
  (variationsSet tables).sort (· ≤ ·)

/-- The four outcome lists of the `results` dictionary built by
comprehensive_table_scan (src/force.py lines 190-195).  Each recorded entry
is the literal dictionary appended by the corresponding branch. -/
structure ScanResults where
  accessible : List (List (String × PyVal))
  protected_ : List (List (String × PyVal))
  unknown : List (List (String × PyVal))
  not_found : List (List (String × PyVal))

/-- The body of the scan loop for one candidate (src/force.py lines 205-227):
probe the name, then append a record to `accessible` when
`result[exists] and result[accessible]` is truthy, to `protected` when
`result[exists] and not result[accessible]` is truthy, to `unknown` when
`result[exists] is None`, and to nothing otherwise.  The transport behaviour
is abstracted as a function from candidate name to raw probe outcome. -/
def scan_step (probe : String → ProbeResponse)
    (results : ScanResults) (table_name : String) : ScanResults :=
  let result := check_table_exists (probe table_name)
  if (dictGet result "exists").truthy && (dictGet result "accessible").truthy then
    { results with accessible := results.accessible ++
        [[("name", PyVal.str table_name), ("sample_data", dictGet result "sample_data")]] }
  else if (dictGet result "exists").truthy && !(dictGet result "accessible").truthy then
    { results with protected_ := results.protected_ ++
        [[("name", PyVal.str table_name), ("error", dictGet result "error"),
          ("status_code", dictGet result "status_code")]] }
  else if (dictGet result "exists").isNone then
    { results with unknown := results.unknown ++
        [[("name", PyVal.str table_name), ("error", dictGet result "error")]] }
  else
    results

/-- Embedding of comprehensive_table_scan (src/force.py lines 185-232).  The
batch slicing at lines 200-201 visits every candidate exactly once in list
order and only drives progress printing, so the loop is a single fold over
the candidate list starting from the empty four-bucket dictionary. -/
def comprehensive_table_scan (probe : String → ProbeResponse)
    (tables : List String) : ScanResults :=
  tables.foldl (scan_step probe) (ScanResults.mk [] [] [] [])

/-- The hardcoded prior results seeding intelligent_table_discovery
(src/force.py line 287). -/
def found_tables : List String := ["profiles", "payments"]

/-- Candidates related to the profiles anchor (src/force.py lines 293-296). -/
def related_to_profiles : List String :=
  ["users", "accounts", "auth", "sessions", "user_settings",
   "user_roles", "permissions", "user_profiles"]

/-- Candidates related to the payments anchor (src/force.py lines 301-304). -/
def related_to_payments : List String :=
  ["transactions", "orders", "invoices", "products",
   "customers", "receipts", "payment_methods", "subscriptions"]

/-- The guess list assembled by intelligent_table_discovery (src/force.py
lines 289-305): the profiles-related names when "profiles" is among the
found tables, then the payments-related names when "payments" is. -/
def intelligent_guesses : List String :=
  (if "profiles" ∈ found_tables then related_to_profiles else []) ++
  (if "payments" ∈ found_tables then related_to_payments else [])

/-- The sequence of candidate names on which intelligent_table_discovery
invokes check_table_exists: the loop at src/force.py lines 309-313 probes
every element of `intelligent_guesses` unconditionally, in order, with no
check against names probed earlier in the run. -/
def intelligent_probe_trace : List String := intelligent_guesses

/-- Embedding of intelligent_table_discovery (src/force.py lines 282-315):
every guess is probed, and the ones whose result is truthy for both `exists`
and `accessible` are collected in order. -/
def intelligent_table_discovery (probe : String → ProbeResponse) : List String :=
  intelligent_guesses.foldl (fun confirmed table =>
    let result := check_table_exists (probe table)
    if (dictGet result "exists").truthy && (dictGet result "accessible").truthy then
      confirmed ++ [table]
    else confirmed) []

/-- Raw outcome of the `requests.get` call made by get_table_schema_info
(src/force.py lines 321-325): an HTTP response whose body, on parsing, is a
JSON array of objects (rows), or any raised exception.  Any exception inside
the `try` block, including a transport failure, a JSON parse failure, or a
body that is not an array of objects (which would make the subscripting at
line 332 or 337 raise), is the `error` case, matching the blanket
`except Exception` handler at line 370. -/
inductive SchemaProbeResult where
  | response (status_code : Nat) (json_rows : Except String (List (List (String × PyVal))))
  | error (msg : String)

/-- The per-column value sample of get_table_schema_info (src/force.py line
337): `[row.get(col) for row in data[:5] if row.get(col) is not None]` — the
non-null values of the column among the first five rows. -/
def column_sample_values (data : List (List (String × PyVal))) (col : String) : List PyVal :=
  ((data.take 5).map (fun row => rowGet row col)).filter (fun v => !v.isNone)

/-- Python `max(set(value_types), key=value_types.count)` (src/force.py line
341): a type name of maximal multiplicity among the votes.  Python breaks
ties by the unspecified iteration order of the set; here ties go to the
earliest first occurrence, which agrees with Python on every tie-free input.
Only called on non-empty vote lists. -/
def most_common_type (value_types : List String) : String :=
  let distinct := value_types.eraseDups
  distinct.foldl
    (fun best t => if value_types.count t > value_types.count best then t else best)
    distinct.headI

/-- The column_info entry built for one column (src/force.py lines 337-347):
a dictionary with the dominant type name and the first three sampled values,
or type "unknown" with no samples when every consulted value was null. -/
def column_info_entry (data : List (List (String × PyVal))) (col : String) : PyVal :=
  let sample_values := column_sample_values data col
  if !sample_values.isEmpty then
    PyVal.dict [("type", PyVal.str (most_common_type (sample_values.map type_name))),
                ("sample_values", PyVal.list (sample_values.take 3))]
  else
    PyVal.dict [("type", PyVal.str "unknown"), ("sample_values", PyVal.list [])]

/-- Embedding of get_table_schema_info (src/force.py lines 317-374).  On a
200 response with a non-empty row sample, the column list is
`list(data[0].keys())` — the keys of the first row only — and column_info
maps each such column to its entry; on a 200 response with an empty sample
the success dictionary carries empty structure; any other status yields the
HTTP-error dictionary, and an exception yields the str(e) dictionary. -/
def get_table_schema_info (r : SchemaProbeResult) : List (String × PyVal) :=
  match r with
  | .error e => [("success", PyVal.bool false), ("error", PyVal.str e)]
  | .response status json_rows =>
      if status = 200 then
        match json_rows with
        | .error e => [("success", PyVal.bool false), ("error", PyVal.str e)]
        | .ok data =>
            if !data.isEmpty then
              let columns := data.headI.map Prod.fst
              [("success", PyVal.bool true),
               ("columns", PyVal.list (columns.map PyVal.str)),
               ("column_info", PyVal.dict (columns.map (fun col => (col, column_info_entry data col)))),
               ("sample_count", PyVal.int (data.length : Int)),
               ("sample_data", PyVal.list (data.map PyVal.dict))]
            else
              [("success", PyVal.bool true), ("columns", PyVal.list []),
               ("column_info", PyVal.dict []), ("sample_count", PyVal.int 0),
               ("sample_data", PyVal.list [])]
      else
        [("success", PyVal.bool false), ("error", PyVal.str ("HTTP " ++ toString status))]

lemma subset_foldl {f : Finset String → String → Finset String}
    (hf : ∀ s t, s ⊆ f s t) :
    ∀ (ts : List String) (s : Finset String), s ⊆ ts.foldl f s := by
  intro ts
  induction ts with
  | nil => intro s; exact Finset.Subset.refl s
  | cons a ts ih => intro s; exact (hf s a).trans (ih (f s a))

lemma singularStep_subset (s : Finset String) (t : String) : s ⊆ singularStep s t := by
  unfold singularStep
  split
  · exact Finset.subset_insert _ _
  · split
    · exact Finset.subset_insert _ _
    · exact Finset.Subset.refl _

lemma transform_step_subset (combine : String → String → String)
    (s : Finset String) (a : String) : s ⊆ transform_step combine s a :=
  Finset.subset_union_left

lemma mem_transform_step (combine : String → String → String)
    {s : Finset String} {t : String} (a : String) (ht : t ∈ s) :
    combine a t ∈ transform_step combine s a :=
  Finset.mem_union_right _ (Finset.mem_image_of_mem _ ht)

lemma mem_transform_foldl (combine : String → String → String) :
    ∀ (as : List String) (s : Finset String) (a t : String),
      a ∈ as → t ∈ s → combine a t ∈ as.foldl (transform_step combine) s := by
  intro as
  induction as with
  | nil => intro s a t ha _; exact absurd ha (List.not_mem_nil a)
  | cons q rest ih =>
      intro s a t ha ht
      rcases List.mem_cons.mp ha with h | h
      · subst h
        exact subset_foldl (transform_step_subset combine) rest _
          (mem_transform_step combine a ht)
      · exact ih _ a t h (transform_step_subset combine s q ht)

lemma transform_foldl_invariant (combine : String → String → String) (Q : String → Prop) :
    ∀ (as : List String), (∀ a ∈ as, ∀ t, Q t → Q (combine a t)) →
      ∀ (s : Finset String), (∀ x ∈ s, Q x) →
        ∀ x ∈ as.foldl (transform_step combine) s, Q x := by
  intro as
  induction as with
  | nil => intro _ s hs x hx; exact hs x hx
  | cons q rest ih =>
      intro hQ s hs x hx
      refine ih (fun a ha => hQ a (List.mem_cons_of_mem _ ha)) (transform_step combine s q) ?_ x hx
      intro y hy
      rcases Finset.mem_union.mp hy with h | h
      · exact hs y h
      · rcases Finset.mem_image.mp h with ⟨t, ht, rfl⟩
        exact hQ q (List.mem_cons_self _ _) t (hs t ht)

lemma mem_generate_of_mem_seed {t : String} {tables : List String}
    (h : t ∈ tables) : t ∈ generate_table_variations tables := by
  unfold generate_table_variations variationsSet
  rw [Finset.mem_sort]
  exact subset_foldl (transform_step_subset _) suffixes _
    (subset_foldl (transform_step_subset _) prefixes _
      (subset_foldl singularStep_subset tables _ (List.mem_toFinset.mpr h)))

lemma mem_variations_data_base :
    "data" ∈ List.foldl singularStep ["data"].toFinset ["data"] :=
  subset_foldl singularStep_subset ["data"] _
    (List.mem_toFinset.mpr (List.mem_singleton.mpr rfl))

lemma mem_variations_app_data : "app_data" ∈ variationsSet ["data"] := by
  unfold variationsSet
  exact subset_foldl (transform_step_subset _) suffixes _
    (mem_transform_foldl _ prefixes _ "app_" "data" (by decide) mem_variations_data_base)

lemma mem_variations_data_log : "data_log" ∈ variationsSet ["data"] := by
  unfold variationsSet
  exact mem_transform_foldl _ suffixes _ "_log" "data" (by decide)
    (subset_foldl (transform_step_subset _) prefixes _ mem_variations_data_base)

lemma mem_variations_app_data_log : "app_data_log" ∈ variationsSet ["data"] := by
  unfold variationsSet
  exact mem_transform_foldl _ suffixes _ "_log" "app_data" (by decide)
    (mem_transform_foldl _ prefixes _ "app_" "data" (by decide) mem_variations_data_base)

lemma underscore_mem_append_left {a : String} (b : String) (h : '_' ∈ a.data) :
    '_' ∈ (a ++ b).data := by
  rw [String.data_append]
  exact List.mem_append_left _ h

lemma underscore_mem_append_right (a : String) {b : String} (h : '_' ∈ b.data) :
    '_' ∈ (a ++ b).data := by
  rw [String.data_append]
  exact List.mem_append_right _ h

lemma scan_step_not_found (probe : String → ProbeResponse) (r : ScanResults) (t : String) :
    (scan_step probe r t).not_found = r.not_found := by
  simp only [scan_step]
  split
  · rfl
  · split
    · rfl
    · split
      · rfl
      · rfl

lemma scan_foldl_not_found (probe : String → ProbeResponse) :
    ∀ (tables : List String) (r : ScanResults),
      (List.foldl (scan_step probe) r tables).not_found = r.not_found := by
  intro tables
  induction tables with
  | nil => intro r; rfl
  | cons a tables ih =>
      intro r
      rw [List.foldl_cons, ih, scan_step_not_found]

lemma foldl_append_filter (p : String → Bool) :
    ∀ (l : List String) (acc : List String),
      l.foldl (fun acc t => if p t then acc ++ [t] else acc) acc = acc ++ l.filter p := by
  intro l
  induction l with
  | nil => intro acc; simp
  | cons a l ih =>
      intro acc
      by_cases h : p a
      · simp [List.foldl_cons, h, ih]
      · simp [List.foldl_cons, h, ih]

lemma accessible_entry_of_ne_200 (s : Nat) (j : Except String PyVal) (h200 : s ≠ 200) :
    dictGet (check_table_exists (.response s j)) "accessible" = PyVal.bool false := by
  simp only [check_table_exists, if_neg h200]
  split
  · rfl
  · split
    · rfl
    · split
      · rfl
      · rfl

/-- Every name in the variation set generated from the single seed
"categories" is the seed itself, the stripped form "categorie", or contains
an underscore (every affix contributes one); in particular "category" is
never generated. -/
lemma variations_categories_inv :
    ∀ x ∈ variationsSet ["categories"],
      x = "categories" ∨ x = "categorie" ∨ ('_' ∈ x.data) := by
  unfold variationsSet
  refine transform_foldl_invariant _ _ suffixes ?_ _
    (transform_foldl_invariant _ _ prefixes ?_ _ ?_)
  · intro suf hsuf t _
    exact Or.inr (Or.inr (underscore_mem_append_right t
      (by revert hsuf; revert suf; decide)))
  · intro pre hpre t _
    exact Or.inr (Or.inr (underscore_mem_append_left t
      (by revert hpre; revert pre; decide)))
  · decide

/-- C1 (code_bug): the scan does not account for every candidate.  A
candidate whose probe returns HTTP 404 (exists equal to False) matches none
of the recording branches of the scan loop: scanning the single candidate
"users" against a transport answering 404 produces a report whose four
buckets are all empty, so the candidate is silently dropped, contradicting
the claim that each candidate name appears in exactly one outcome bucket. -/
theorem C1_scan_silently_drops_404_candidate :
    comprehensive_table_scan
        (fun _ => ProbeResponse.response 404 (Except.ok (PyVal.list []))) ["users"]
      = ScanResults.mk [] [] [] [] := rfl

/-- C2 counterexample: an HTTP 500 response is not mapped to Indeterminate
as the claim states: check_table_exists marks it exists True and accessible
False, which the scan branch conditions classify as Protected. -/
theorem C2_counterexample_500_protected :
    outcome_class (check_table_exists
        (ProbeResponse.response 500 (Except.ok (PyVal.list [])))) = OutcomeClass.Protected
      ∧ OutcomeClass.Protected ≠ OutcomeClass.Indeterminate :=
  ⟨rfl, by decide⟩

/-- C2 amended: the outcome mapping is total and mutually exclusive, with
HTTP 200 and a parseable body mapping to Accessible, 401 and 403 to
Protected, 404 to Absent, a timeout, a transport failure or a 200 response
with an unparseable body to Indeterminate, and every other response code to
Protected (the code treats any non-404 HTTP response as confirming
existence).  Both sides being total functions, each raw signal receives
exactly one class. -/
theorem C2_amended_outcome_mapping :
    ∀ r : ProbeResponse, outcome_class (check_table_exists r) = amended_outcome_class r := by
  intro r
  match r with
  | .timeout => rfl
  | .error e => rfl
  | .response s j =>
      by_cases h200 : s = 200
      · subst h200
        match j with
        | .ok body => rfl
        | .error e => rfl
      · by_cases h401 : s = 401
        · subst h401; rfl
        · by_cases h403 : s = 403
          · subst h403; rfl
          · by_cases h404 : s = 404
            · subst h404; rfl
            · have hc : check_table_exists (.response s j) =
                  [("exists", PyVal.bool true), ("accessible", PyVal.bool false),
                   ("status_code", PyVal.int s),
                   ("error", PyVal.str ("HTTP " ++ toString s))] := by
                simp only [check_table_exists, if_neg h200, if_neg h401, if_neg h403, if_neg h404]
              have ha : amended_outcome_class (.response s j) = OutcomeClass.Protected := by
                simp only [amended_outcome_class, if_neg h200, if_neg h404]
                rw [if_neg]
                intro hor
                rcases hor with h | h
                · exact h401 h
                · exact h403 h
              rw [hc, ha]
              rfl

/-- C3 counterexample: with the seed set containing only "data", the
generated candidate set does contain the doubly-transformed form
"app_data_log": the prefix loop produces "app_data", and the later suffix
loop re-reads the grown set, so "_log" also applies to "app_data". -/
theorem C3_counterexample_app_data_log_generated :
    "app_data_log" ∈ generate_table_variations ["data"] := by
  unfold generate_table_variations
  rw [Finset.mem_sort]
  exact mem_variations_app_data_log

/-- C3 amended: affix application is single-pass per individual affix but
the working set is re-read before each affix, so for the seed set containing
only "data" the generated set contains "app_data" and "data_log" and also
compound forms such as "app_data_log" obtained by applying a suffix to a
previously prefixed name. -/
theorem C3_amended_transform_closure :
    "app_data" ∈ generate_table_variations ["data"] ∧
    "data_log" ∈ generate_table_variations ["data"] ∧
    "app_data_log" ∈ generate_table_variations ["data"] := by
  unfold generate_table_variations
  rw [Finset.mem_sort, Finset.mem_sort, Finset.mem_sort]
  exact ⟨mem_variations_app_data, mem_variations_data_log, mem_variations_app_data_log⟩

/-- C4 (code_bug): singularization of a seed ending in "ies" never produces
the "y" form, because the branch testing for "ies" is unreachable: any such
seed longer than three characters also ends in "s", so the first branch
strips only the final "s".  The seed "categories" yields "categorie", and
"category" is nowhere in the generated set, contradicting the claimed rule
(which matches the evident intent of the dead elif branch at src/force.py
lines 105-107). -/
theorem C4_categories_singular_is_categorie :
    "categorie" ∈ generate_table_variations ["categories"] ∧
    "category" ∉ generate_table_variations ["categories"] := by
  constructor
  · unfold generate_table_variations
    rw [Finset.mem_sort]
    unfold variationsSet
    refine subset_foldl (transform_step_subset _) suffixes _
      (subset_foldl (transform_step_subset _) prefixes _ ?_)
    decide
  · intro h
    unfold generate_table_variations at h
    rw [Finset.mem_sort] at h
    rcases variations_categories_inv _ h with h1 | h1 | h1
    · exact absurd h1 (by decide)
    · exact absurd h1 (by decide)
    · exact absurd h1 (by decide)

/-- C5 counterexample: a field observed in the sample but absent from the
first row gets no field summary.  For the sample rows where "b" appears only
in the second row, column_info has an entry for "a" only — there is no
summary for "b" — refuting the claim that one field summary is produced per
field name observed across the sample. -/
theorem C5_counterexample_field_only_in_later_row :
    (get_table_schema_info (SchemaProbeResult.response 200 (Except.ok
        [[("a", PyVal.int 1)], [("a", PyVal.int 1), ("b", PyVal.int 2)]]))).lookup "column_info"
      = some (PyVal.dict [("a", PyVal.dict [("type", PyVal.str "int"),
          ("sample_values", PyVal.list [PyVal.int 1, PyVal.int 1])])]) := rfl

/-- C5 amended: schema inference produces one field summary per key of the
first sampled row (a field appearing only in later rows gets none); for each
such field the non-null values among the first five rows are collected for
type voting and the first three are retained as samples; no
fully-populated or partially-populated flag is computed.  For the example
rows, field "id" has dominant Python type "int" with samples 1, 2, 3 and
field "name" has dominant type "str" with samples "a", "b"; a value
appearing only in the sixth row is not consulted, leaving its column typed
"unknown" with no samples. -/
theorem C5_amended_schema_inference :
    (get_table_schema_info (SchemaProbeResult.response 200 (Except.ok
        [[("id", PyVal.int 1), ("name", PyVal.str "a")],
         [("id", PyVal.int 2), ("name", PyVal.str "b")],
         [("id", PyVal.int 3)]]))
      = [("success", PyVal.bool true),
         ("columns", PyVal.list [PyVal.str "id", PyVal.str "name"]),
         ("column_info", PyVal.dict
           [("id", PyVal.dict [("type", PyVal.str "int"),
              ("sample_values", PyVal.list [PyVal.int 1, PyVal.int 2, PyVal.int 3])]),
            ("name", PyVal.dict [("type", PyVal.str "str"),
              ("sample_values", PyVal.list [PyVal.str "a", PyVal.str "b"])])]),
         ("sample_count", PyVal.int 3),
         ("sample_data", PyVal.list
           [PyVal.dict [("id", PyVal.int 1), ("name", PyVal.str "a")],
            PyVal.dict [("id", PyVal.int 2), ("name", PyVal.str "b")],
            PyVal.dict [("id", PyVal.int 3)]])]) ∧
    ((get_table_schema_info (SchemaProbeResult.response 200 (Except.ok
        [[("a", PyVal.int 1)], [("a", PyVal.int 1), ("b", PyVal.int 2)]]))).lookup "columns"
      = some (PyVal.list [PyVal.str "a"])) ∧
    ((get_table_schema_info (SchemaProbeResult.response 200 (Except.ok
        [[("x", PyVal.none)], [("x", PyVal.none)], [("x", PyVal.none)],
         [("x", PyVal.none)], [("x", PyVal.none)], [("x", PyVal.int 7)]]))).lookup "column_info"
      = some (PyVal.dict [("x", PyVal.dict [("type", PyVal.str "unknown"),
          ("sample_values", PyVal.list [])])])) :=
  ⟨rfl, rfl, rfl⟩

/-- C6 counterexample: the association expander does re-probe a name already
probed in the current run.  The comprehensive scan probes every element of
generate_table_variations applied to the seed vocabulary, which contains
"users"; the expander then probes every element of its guess list, which
also contains "users", with no deduplication. -/
theorem C6_counterexample_users_probed_twice :
    "users" ∈ generate_table_variations common_tables ∧
    "users" ∈ intelligent_probe_trace :=
  ⟨mem_generate_of_mem_seed (by decide), by decide⟩

/-- C6 amended: the expander performs no deduplication at all: for every
transport, the names it submits to the probe classifier are exactly its
static guess list, in order, and it returns those whose probe came back
existing and accessible; the guess list overlaps the names already probed by
the comprehensive scan (for example "accounts"). -/
theorem C6_amended_expander_no_dedup :
    (∀ probe : String → ProbeResponse,
      intelligent_table_discovery probe = intelligent_probe_trace.filter (fun table =>
        (dictGet (check_table_exists (probe table)) "exists").truthy &&
        (dictGet (check_table_exists (probe table)) "accessible").truthy)) ∧
    "accounts" ∈ intelligent_probe_trace ∧
    "accounts" ∈ generate_table_variations common_tables := by
  refine ⟨?_, by decide, mem_generate_of_mem_seed (by decide)⟩
  intro probe
  unfold intelligent_table_discovery intelligent_probe_trace
  rw [foldl_append_filter]
  rfl

/-- C7 (confirmed): the accessible outcome arises exactly when the request
returned status 200 and the body parsed as JSON; in particular a 200
response whose body fails to parse is classified Indeterminate (the parse
exception reaches the blanket handler, setting exists to None), never
Accessible. -/
theorem C7_accessible_requires_parsed_200 :
    (∀ r : ProbeResponse,
       dictGet (check_table_exists r) "accessible" = PyVal.bool true ↔
         ∃ body, r = ProbeResponse.response 200 (Except.ok body)) ∧
    (∀ msg, outcome_class (check_table_exists (ProbeResponse.response 200 (Except.error msg)))
       = OutcomeClass.Indeterminate) := by
  constructor
  · intro r
    constructor
    · intro h
      match r with
      | .timeout => simp [check_table_exists, dictGet, List.lookup] at h
      | .error e => simp [check_table_exists, dictGet, List.lookup] at h
      | .response s j =>
          by_cases h200 : s = 200
          · subst h200
            match j with
            | .ok body => exact ⟨body, rfl⟩
            | .error e => simp [check_table_exists, dictGet, List.lookup] at h
          · rw [accessible_entry_of_ne_200 s j h200] at h
            exact absurd h (by simp)
    · rintro ⟨body, rfl⟩
      rfl
  · intro msg
    rfl

/-- C8 (confirmed): for every seed vocabulary the generated candidate list
contains every seed and has no duplicate entries. -/
theorem C8_generator_superset_nodup :
    ∀ tables : List String,
      (∀ t ∈ tables, t ∈ generate_table_variations tables) ∧
      (generate_table_variations tables).Nodup := by
  intro tables
  exact ⟨fun t ht => mem_generate_of_mem_seed ht, Finset.sort_nodup _ _⟩

theorem C8_generator_superset_nodup_witness :
    "users" ∈ ["users", "data"] ∧
    "users" ∈ generate_table_variations ["users", "data"] ∧
    (generate_table_variations ["users", "data"]).Nodup :=
  ⟨by decide, (C8_generator_superset_nodup ["users", "data"]).1 "users" (by decide),
   (C8_generator_superset_nodup ["users", "data"]).2⟩

/-- C9 (confirmed): check_table_exists is a total function of the raw
transport outcome — no exception propagates — and every result dictionary
carries the keys named exists, accessible and status_code; a timeout or a
raised transport exception yields exists None with status_code 0 and an
error-detail string. -/
theorem C9_check_table_exists_total :
    ∀ r : ProbeResponse,
      (((check_table_exists r).lookup "exists").isSome = true ∧
       ((check_table_exists r).lookup "accessible").isSome = true ∧
       ((check_table_exists r).lookup "status_code").isSome = true) ∧
      ((r = ProbeResponse.timeout ∨ ∃ e, r = ProbeResponse.error e) →
        dictGet (check_table_exists r) "exists" = PyVal.none ∧
        dictGet (check_table_exists r) "status_code" = PyVal.int 0 ∧
        ∃ msg, (check_table_exists r).lookup "error" = some (PyVal.str msg)) := by
  intro r
  match r with
  | .timeout => exact ⟨⟨rfl, rfl, rfl⟩, fun _ => ⟨rfl, rfl, ⟨"Timeout", rfl⟩⟩⟩
  | .error e => exact ⟨⟨rfl, rfl, rfl⟩, fun _ => ⟨rfl, rfl, ⟨e, rfl⟩⟩⟩
  | .response s j =>
      refine ⟨?_, ?_⟩
      · by_cases h200 : s = 200
        · subst h200
          match j with
          | .ok body => exact ⟨rfl, rfl, rfl⟩
          | .error e => exact ⟨rfl, rfl, rfl⟩
        · simp only [check_table_exists, if_neg h200]
          split
          · exact ⟨rfl, rfl, rfl⟩
          · split
            · exact ⟨rfl, rfl, rfl⟩
            · split
              · exact ⟨rfl, rfl, rfl⟩
              · exact ⟨rfl, rfl, rfl⟩
      · rintro (h | ⟨e, h⟩) <;> exact ProbeResponse.noConfusion h

theorem C9_check_table_exists_total_witness :
    (ProbeResponse.timeout = ProbeResponse.timeout ∨
      ∃ e, ProbeResponse.timeout = ProbeResponse.error e) ∧
    (dictGet (check_table_exists ProbeResponse.timeout) "exists" = PyVal.none ∧
     dictGet (check_table_exists ProbeResponse.timeout) "status_code" = PyVal.int 0 ∧
     ∃ msg, (check_table_exists ProbeResponse.timeout).lookup "error" = some (PyVal.str msg)) :=
  ⟨Or.inl rfl, (C9_check_table_exists_total ProbeResponse.timeout).2 (Or.inl rfl)⟩

/-- C10 (confirmed): at the end of any scan pass the not_found bucket is the
empty list, and a probe step whose transport answers HTTP 404 leaves the
results dictionary unchanged — the 404 case matches none of the recording
branches. -/
theorem C10_not_found_bucket_empty :
    (∀ (probe : String → ProbeResponse) (tables : List String),
       (comprehensive_table_scan probe tables).not_found = []) ∧
    (∀ (body : Except String PyVal) (r : ScanResults) (t : String),
       scan_step (fun _ => ProbeResponse.response 404 body) r t = r) := by
  constructor
  · intro probe tables
    exact scan_foldl_not_found probe tables _
  · intro body r t
    rfl
